import Mathlib

/-!
Verification of the Saxobank trading client (`src/index.ts`) against its
natural-language specification.

The TypeScript runtime values that the client consumes and produces are
modelled by the inductive `Js` below: JSON-shaped JavaScript values
(`undefined`, `null`, booleans, numbers, strings, objects, arrays).
Numbers are modelled by `Int`; none of the verified code paths performs
arithmetic on them, they are only stored, compared with `===` and tested
for truthiness, so the double/Int difference is immaterial here (`NaN`
never arises).  Network effects are modelled by oracle environments: each
operation takes the parsed JSON bodies (or transport failures) of the
requests it would issue, `Except String Js` standing for "rejected with an
`Error` carrying this message" versus "fulfilled with this parsed body".
Thrown JavaScript exceptions are modelled by `Except`; the classified
provider errors thrown by `handleError` keep their code/message/model-state
structurally in `JsError.apiError`.
-/

/-- A JavaScript runtime value as this client manipulates them. -/
inductive Js where
  | undef : Js
  | nul : Js
  | boolean : Bool → Js
  | num : Int → Js
  | str : String → Js
  | obj : List (String × Js) → Js
  | arr : List Js → Js

/-- Property lookup on an object's field list. -/
def Js.lookupField : List (String × Js) → String → Js
  | [], _ => Js.undef
  | (k, v) :: rest, key => if k = key then v else Js.lookupField rest key

/-- `a?.k` and `a.k` on a non-null base: property access.  On `undefined`
and `null` it yields `undefined` (the callers that would instead throw a
`TypeError` on a plain access guard the base with `getE`); on primitives
JavaScript yields `undefined` for these (absent) properties. -/
def Js.get : Js → String → Js
  | Js.obj fields, key => Js.lookupField fields key
  | _, _ => Js.undef

/-- Plain property access `a.k`: throws a `TypeError` when the base is
`undefined` or `null`, otherwise reads the property. -/
def Js.getE : Js → String → Except Unit Js
  | Js.undef, _ => Except.error ()
  | Js.nul, _ => Except.error ()
  | j, key => Except.ok (j.get key)

/-- Is the value `undefined`? (the `x !== undefined` test). -/
def Js.isUndef : Js → Bool
  | Js.undef => true
  | _ => false

/-- JavaScript truthiness: `undefined`, `null`, `false`, `0` and `""` are
falsy; every object and array is truthy. -/
def truthy : Js → Bool
  | Js.undef => false
  | Js.nul => false
  | Js.boolean b => b
  | Js.num n => n != 0
  | Js.str s => s != ""
  | Js.obj _ => true
  | Js.arr _ => true

/-- The JavaScript `a || b` operator. -/
def jsOr (a b : Js) : Js := if truthy a then a else b

/-- The JavaScript `a ?? b` operator. -/
def jsNullish (a b : Js) : Js :=
  match a with
  | Js.undef => b
  | Js.nul => b
  | v => v

/-- JavaScript strict equality `===` on the values this client compares.
Primitives compare by value; an object or array operand makes the
comparison `false`: `===` is reference equality there, and every such
comparison in the source puts values parsed from two distinct HTTP
responses side by side, which are never the same heap object. -/
def strictEq : Js → Js → Bool
  | Js.undef, Js.undef => true
  | Js.nul, Js.nul => true
  | Js.boolean a, Js.boolean b => a == b
  | Js.num a, Js.num b => a == b
  | Js.str a, Js.str b => a == b
  | _, _ => false

/-- `s.toLowerCase()`: defined on strings, a `TypeError` otherwise. -/
def jsToLowerCase : Js → Except Unit Js
  | Js.str s => Except.ok (Js.str s.toLower)
  | _ => Except.error ()

/-- `new Date(t)`, modelled as a wrapper carrying the raw timestamp value
(no claim inspects the parsed date). -/
def jsDate (t : Js) : Js := Js.obj [("Date", t)]

/-- A thrown JavaScript exception: either a classified provider error
(`handleError`'s two branches, carrying code, message and — for the
top-level shape — the model state) or a plain `Error` with a message. -/
inductive JsError where
  | apiError : Js → Js → Option Js → JsError
  | error : String → JsError

/-- `Except.isOk` spelled out for the result types used here. -/
def exceptIsOk : Except JsError α → Bool
  | Except.ok _ => true
  | Except.error _ => false

/-- The `Error` object `new Error(msg)` seen as a JavaScript value: it has
a `message` property and neither `ErrorCode` nor `ErrorInfo`. -/
def jsErrorObj (msg : String) : Js := Js.obj [("message", Js.str msg)]

/-- `handleError` (src/index.ts:331-343): a payload with a truthy top-level
`ErrorCode` throws an error carrying `ErrorCode`, `Message` and
`ModelState`; otherwise a payload with a truthy `ErrorInfo` throws an error
carrying `ErrorInfo.ErrorCode` and `ErrorInfo.Message`; any other value is
returned unchanged. -/
def handleError (response : Js) : Except JsError Js :=
  if truthy (response.get "ErrorCode") then
    Except.error (JsError.apiError (response.get "ErrorCode") (response.get "Message")
      (some (response.get "ModelState")))
  else if truthy (response.get "ErrorInfo") then
    Except.error (JsError.apiError ((response.get "ErrorInfo").get "ErrorCode")
      ((response.get "ErrorInfo").get "Message") none)
  else
    Except.ok response

/-- A transport-level request outcome: `Except.error msg` models the
promise rejecting with `new Error(msg)` (network failure, or `request`'s
own throw on a non-2xx status), `Except.ok body` the parsed JSON body. -/
abbrev RequestResult := Except String Js

/-- Did the request fail, counting both a rejected transport promise and a
body that `handleError` classifies as a provider error? -/
def requestFailed (raw : RequestResult) : Bool :=
  match raw with
  | Except.error _ => true
  | Except.ok body =>
    match handleError body with
    | Except.error _ => true
    | Except.ok _ => false

/-- The internal `Position` shape (src/index.ts:83-104), as built by the
normalizers.  `client_id` comes from the client's own `/clients/me`
payload; `internal` is the non-enumerable back-reference to the raw
provider record.  `assetType` is set only by the net-position normalizer;
elsewhere reading it yields `undefined`, as property access on the
JavaScript object would. -/
structure Position where
  id : Js
  uic : Js
  client_id : Js
  account_id : Js
  order_id : Js
  status : Js
  quantity : Js
  price : Js
  value : Js
  currency : Js
  assetType : Js
  internal : Js

/-- The internal `Order` shape (src/index.ts:152-179) as built by
`getOrders`. -/
structure Order where
  id : Js
  time : Js
  uic : Js
  type : Js
  order_type : Js
  status : Js
  price : Js
  quantity : Js
  client_id : Js
  account_id : Js
  exchange_id : Js
  assetType : Js
  internal : Js

/-- `OpenOrderType` translation (src/index.ts:389-393): the four known
provider enums map to the internal names, anything else passes through. -/
def mapOpenOrderType (j : Js) : Js :=
  if strictEq j (Js.str "Market") then Js.str "market"
  else if strictEq j (Js.str "Limit") then Js.str "limit"
  else if strictEq j (Js.str "Stop") then Js.str "stop"
  else if strictEq j (Js.str "StopLimit") then Js.str "stop_limit"
  else j

/-- `Status` translation (src/index.ts:394-397), unknown values passed
through. -/
def mapOrderStatus (j : Js) : Js :=
  if strictEq j (Js.str "Filled") then Js.str "filled"
  else if strictEq j (Js.str "Working") then Js.str "working"
  else if strictEq j (Js.str "Parked") then Js.str "parked"
  else j

/-- One element of the positions payload (src/index.ts:363-375): the
destructuring throws on a nullish element, the `PositionBase.x` /
`PositionView.x` reads throw when those bases are nullish. -/
def mapPosition (clientId : Js) (e : Js) : Except Unit Position :=
  match e with
  | Js.undef => Except.error ()
  | Js.nul => Except.error ()
  | _ => do
    let pid := e.get "PositionId"
    let base := e.get "PositionBase"
    let view := e.get "PositionView"
    let uic ← base.getE "Uic"
    let accountId ← base.getE "AccountId"
    let orderId ← base.getE "SourceOrderId"
    let status ← base.getE "Status"
    let amount ← base.getE "Amount"
    let openPrice ← base.getE "OpenPrice"
    let current ← view.getE "CurrentPrice"
    let currency ← view.getE "ExposureCurrency"
    Except.ok
      { id := pid, uic := uic, client_id := clientId, account_id := accountId,
        order_id := orderId, status := status, quantity := amount,
        price := openPrice, value := current, currency := currency,
        assetType := Js.undef,
        internal := Js.obj [("PositionId", pid), ("PositionBase", base), ("PositionView", view)] }

/-- One element of the orders payload (src/index.ts:384-405).
`order.BuySell.toLowerCase()` throws unless `BuySell` is a string;
`order.Exchange?.ExchangeId` is a lenient access. -/
def mapOrder (order : Js) : Except Unit Order :=
  match order with
  | Js.undef => Except.error ()
  | Js.nul => Except.error ()
  | _ => do
    let ty ← jsToLowerCase (order.get "BuySell")
    Except.ok
      { id := order.get "OrderId", time := jsDate (order.get "OrderTime"),
        uic := order.get "Uic", type := ty,
        order_type := mapOpenOrderType (order.get "OpenOrderType"),
        status := mapOrderStatus (order.get "Status"),
        price := order.get "Price", quantity := order.get "Amount",
        client_id := order.get "ClientId", account_id := order.get "AccountId",
        exchange_id := (order.get "Exchange").get "ExchangeId",
        assetType := order.get "AssetType", internal := order }

/-- One element of the net-positions payload (src/index.ts:583-596). -/
def mapNetPosition (clientId : Js) (netPos : Js) : Except Unit Position :=
  match netPos with
  | Js.undef => Except.error ()
  | Js.nul => Except.error ()
  | _ => do
    let base := netPos.get "NetPositionBase"
    let view := netPos.get "NetPositionView"
    let uic ← base.getE "Uic"
    let accountId ← base.getE "AccountId"
    let status ← base.getE "Status"
    let amount ← base.getE "Amount"
    let avgOpen ← base.getE "AverageOpenPrice"
    let marketValue ← view.getE "MarketValue"
    let currency ← view.getE "ExposureCurrency"
    let assetType ← base.getE "AssetType"
    Except.ok
      { id := netPos.get "NetPositionId", uic := uic, client_id := clientId,
        account_id := accountId, order_id := Js.str "", status := status,
        quantity := amount, price := avgOpen, value := marketValue,
        currency := currency, assetType := assetType, internal := netPos }

/-- One element of the closed-positions payload (src/index.ts:612-624). -/
def mapClosedPosition (clientId : Js) (closedPos : Js) : Except Unit Position :=
  match closedPos with
  | Js.undef => Except.error ()
  | Js.nul => Except.error ()
  | _ => do
    let base := closedPos.get "PositionBase"
    let view := closedPos.get "PositionView"
    let uic ← base.getE "Uic"
    let accountId ← base.getE "AccountId"
    let orderId ← base.getE "SourceOrderId"
    let amount ← base.getE "Amount"
    let openPrice ← base.getE "OpenPrice"
    let profitLoss ← view.getE "ProfitLoss"
    let currency ← view.getE "ExposureCurrency"
    Except.ok
      { id := closedPos.get "ClosedPositionId", uic := uic, client_id := clientId,
        account_id := accountId, order_id := orderId, status := Js.str "closed",
        quantity := amount, price := openPrice, value := profitLoss,
        currency := currency, assetType := Js.undef, internal := closedPos }

/-- `result?.Data?.map(f) || []`: mapping over `Data` when it is an array;
a nullish `Data` short-circuits to `undefined`, turned into `[]` by `||`;
`.map` on any other value throws a `TypeError`. -/
def mapData (result : Js) (f : Js → Except Unit α) : Except Unit (List α) :=
  match result.get "Data" with
  | Js.arr l => l.mapM f
  | Js.undef => Except.ok []
  | Js.nul => Except.ok []
  | _ => Except.error ()

/-- The shared shape of the lenient list reads (src/index.ts:360-379,
381-409, 576-600, 602-628): `request` → `handleError` → map `Data`, the
whole pipeline wrapped in `try { ... } catch { return [] }`. -/
def lenientRead (raw : RequestResult) (f : Js → Except Unit α) : List α :=
  match raw with
  | Except.error _ => []
  | Except.ok body =>
    match handleError body with
    | Except.error _ => []
    | Except.ok result =>
      match mapData result f with
      | Except.ok l => l
      | Except.error _ => []

/-- `getPositions` (src/index.ts:360-379). -/
def getPositions (clientId : Js) (raw : RequestResult) : List Position :=
  lenientRead raw (mapPosition clientId)

/-- `getOrders` (src/index.ts:381-409). -/
def getOrders (raw : RequestResult) : List Order :=
  lenientRead raw mapOrder

/-- `getNetPositions` (src/index.ts:576-600). -/
def getNetPositions (clientId : Js) (raw : RequestResult) : List Position :=
  lenientRead raw (mapNetPosition clientId)

/-- `getClosedPositions` (src/index.ts:602-628). -/
def getClosedPositions (clientId : Js) (raw : RequestResult) : List Position :=
  lenientRead raw (mapClosedPosition clientId)

/-- `getExposure` (src/index.ts:630-640): the classified payload on
success, `{}` on any failure. -/
def getExposure (raw : RequestResult) : Js :=
  match raw with
  | Except.error _ => Js.obj []
  | Except.ok body =>
    match handleError body with
    | Except.error _ => Js.obj []
    | Except.ok result => result

/-- The internal `Balance` shape (src/index.ts:66-81, 411-420). -/
structure Balance where
  cashBalance : Js
  cashAvailable : Js
  totalValue : Js
  marginUsed : Js
  marginAvailable : Js
  unrealizedPnL : Js
  currency : Js
  internal : Js

/-- `getBalance` (src/index.ts:411-420):
`request(...).catch(handleError).then(handleError).then(map)`.  A rejected
request delivers the thrown `Error` object to `handleError` inside
`.catch`; an `Error` carries neither `ErrorCode` nor `ErrorInfo`, so
`handleError` returns it, which *fulfills* the promise with the `Error`
object as value; the field mapping then reads absent properties off it. -/
def getBalance (raw : RequestResult) : Except JsError Balance :=
  let recovered : Except JsError Js :=
    match raw with
    | Except.error msg => handleError (jsErrorObj msg)
    | Except.ok body => Except.ok body
  match recovered with
  | Except.error e => Except.error e
  | Except.ok body =>
    match handleError body with
    | Except.error e => Except.error e
    | Except.ok response =>
      Except.ok
        { cashBalance := jsOr (response.get "CashBalance") (Js.num 0),
          cashAvailable := jsOr (response.get "CashAvailableForTrading") (Js.num 0),
          totalValue := jsOr (response.get "TotalValue") (Js.num 0),
          marginUsed := jsOr (response.get "MarginUsedByCurrentPositions") (Js.num 0),
          marginAvailable := jsOr (response.get "MarginAvailableForTrading") (Js.num 0),
          unrealizedPnL := jsOr (response.get "UnrealizedPositionsValue") (Js.num 0),
          currency := response.get "Currency",
          internal := response }

/-- The `PreCheckResult` shape (src/index.ts:209-229, 654-685), each block
present only when the corresponding provider field was truthy. -/
structure PreCheckResult where
  estimatedCosts : Option (Js × Js × Js)
  marginImpact : Option (Js × Js × Js)
  errorInfo : Option (Js × Js)
  preCheckResult : Option Js

/-- `preCheckOrder` (src/index.ts:642-686): POST, parse the body, classify
it with `handleError` (a thrown classification propagates), then map the
TitleCase payload to camelCase.  `fetch` itself never rejects on a non-2xx
status and the code never reads the status, so a non-2xx body flows down
the same path as a 2xx one.  A nullish classified payload makes the plain
`response.EstimatedCosts` access throw a `TypeError`. -/
def preCheckOrder (raw : RequestResult) : Except JsError PreCheckResult :=
  match raw with
  | Except.error msg => Except.error (JsError.error msg)
  | Except.ok body =>
    match handleError body with
    | Except.error e => Except.error e
    | Except.ok response =>
      match response with
      | Js.undef => Except.error (JsError.error "TypeError")
      | Js.nul => Except.error (JsError.error "TypeError")
      | _ =>
        let costsVal := jsOr (response.get "EstimatedCosts") (response.get "Costs")
        Except.ok
          { estimatedCosts :=
              if truthy costsVal then
                some (costsVal.get "Commission", costsVal.get "Financing",
                  jsOr (costsVal.get "Total") (costsVal.get "TotalCosts"))
              else none,
            marginImpact :=
              if truthy (response.get "MarginImpact") then
                some ((response.get "MarginImpact").get "InitialMargin",
                  (response.get "MarginImpact").get "MaintenanceMargin",
                  (response.get "MarginImpact").get "Currency")
              else none,
            errorInfo :=
              if truthy (response.get "ErrorInfo") then
                some ((response.get "ErrorInfo").get "ErrorCode",
                  (response.get "ErrorInfo").get "Message")
              else none,
            preCheckResult :=
              if truthy (response.get "PreCheckResult") then
                some (response.get "PreCheckResult")
              else none }

/-- The per-order options bag (src/index.ts:135-150); every field defaults
to `undefined` when the caller omits it. -/
structure OrderOptions where
  assetType : Js := Js.undef
  duration : Js := Js.undef
  externalReference : Js := Js.undef
  manualOrder : Js := Js.undef
  isForceOpen : Js := Js.undef
  trailingStopDistanceToMarket : Js := Js.undef
  trailingStopStep : Js := Js.undef

/-- The pre-submission validation chain of `createOrder`
(src/index.ts:432-435), returning the thrown message, `none` when the
arguments pass.  The `!x` / `(a || b)` tests are JavaScript truthiness:
`0` and `undefined` alike count as absent. -/
def validateOrder (order_type : String) (price stop_limit : Js) : Option String :=
  if order_type = "stop" && !(truthy stop_limit) then
    some "Stop orders require a stop limit price"
  else if order_type = "market" && (truthy price || truthy stop_limit) then
    some "Market orders cannot have a price or stop limit"
  else if (order_type = "limit" || order_type = "stop_limit") && !(truthy price) then
    some "Limit orders require a price"
  else if !(order_type = "market" || order_type = "stop" || order_type = "limit"
      || order_type = "stop_limit") then
    some "Invalid order type"
  else
    none

/-- `order_type` translated to the provider enum (src/index.ts:442-446),
with passthrough for anything else. -/
def mapOrderTypeOut (order_type : String) : String :=
  if order_type = "market" then "Market"
  else if order_type = "limit" then "Limit"
  else if order_type = "stop" then "Stop"
  else if order_type = "stop_limit" then "StopLimit"
  else order_type

/-- The submission payload built by `createOrder` (src/index.ts:437-459).
An `Option` field is `none` exactly when the conditional spread
`...cond && { K: v }` omitted the key. -/
structure OrderRequestPayload where
  AccountKey : String
  Uic : Js
  AssetType : Js
  BuySell : String
  OrderType : String
  Amount : Js
  OrderPrice : Option Js
  StopLimitPrice : Option Js
  OrderRelation : String
  ManualOrder : Js
  ExternalReference : Option Js
  IsForceOpen : Option Js
  TrailingStopDistanceToMarket : Option Js
  TrailingStopStep : Option Js
  OrderDuration : Option Js

/-- Builds the submission payload (src/index.ts:437-459). -/
def buildOrderRequest (account_key : String) (type : String) (uic quantity : Js)
    (order_type : String) (price stop_limit : Js) (options : OrderOptions) :
    OrderRequestPayload :=
  { AccountKey := account_key,
    Uic := uic,
    AssetType := jsOr options.assetType (Js.str "FxSpot"),
    BuySell := if type = "buy" then "Buy" else "Sell",
    OrderType := mapOrderTypeOut order_type,
    Amount := quantity,
    OrderPrice := if truthy price then some price else none,
    StopLimitPrice := if truthy stop_limit then some stop_limit else none,
    OrderRelation := "StandAlone",
    ManualOrder := jsNullish options.manualOrder (Js.boolean true),
    ExternalReference :=
      if truthy options.externalReference then some options.externalReference else none,
    IsForceOpen := if truthy options.isForceOpen then some options.isForceOpen else none,
    TrailingStopDistanceToMarket :=
      if truthy options.trailingStopDistanceToMarket then
        some options.trailingStopDistanceToMarket
      else none,
    TrailingStopStep :=
      if truthy options.trailingStopStep then some options.trailingStopStep else none,
    OrderDuration :=
      if order_type ≠ "market" then
        some (jsOr options.duration (Js.obj [("DurationType", Js.str "GoodTillCancel")]))
      else none }

/-- The synthesized fallback order (src/index.ts:488-502). -/
structure FallbackOrder where
  id : Js
  type : String
  order_type : String
  price : Js
  quantity : Js
  time : Js
  uic : Js
  client_id : Js
  account_id : String
  exchange_id : String
  status : String
  externalReference : Js
  assetType : Js

/-- Builds the fallback order (src/index.ts:488-502): locally known
submission parameters, `status` fixed to `"working"`. -/
def mkFallback (orderId : Js) (type : String) (order_type : String)
    (price quantity now uic clientId : Js) (account_key : String)
    (options : OrderOptions) : FallbackOrder :=
  { id := orderId, type := type, order_type := order_type,
    price := jsOr price (Js.num 0), quantity := quantity, time := now,
    uic := uic, client_id := clientId, account_id := account_key,
    exchange_id := "", status := "working",
    externalReference := options.externalReference,
    assetType := jsOr options.assetType (Js.str "FxSpot") }

/-- What `createOrder` resolves the submitted order to: the raw payload of
the order-by-id fetch returned verbatim, a `Position` found by the
source-order-id scan, or the synthesized fallback order. -/
inductive CreateOrderResult where
  | rawOrder : Js → CreateOrderResult
  | position : Position → CreateOrderResult
  | fallback : FallbackOrder → CreateOrderResult

/-- The network oracle for one `createOrder` run: `now` is the clock value
the fallback's `time` would take, `submitResponse` the parsed body of the
submission POST, `orderDetails` the outcome of the order-by-id `request`
(no `handleError` is applied to it in the source), `positionsRaw` the
transport outcome behind the `getPositions` call of the reconciliation. -/
structure CreateOrderEnv where
  now : Js
  submitResponse : RequestResult
  orderDetails : RequestResult
  positionsRaw : RequestResult

/-- A `createOrder` run's observable outcome: whether the submission POST
was issued, the payload it carried, and the returned value or thrown
error. -/
structure CreateOrderOutcome where
  submitted : Bool
  payload : Option OrderRequestPayload
  result : Except JsError CreateOrderResult

/-- The predicate of the reconciliation scan (src/index.ts:483):
`internal(pos).PositionBase?.SourceOrderId === orderId`. -/
def positionMatches (orderId : Js) (p : Position) : Bool :=
  strictEq ((p.internal.get "PositionBase").get "SourceOrderId") orderId

/-- `createOrder` (src/index.ts:422-503): validate, POST the translated
payload, classify the response, require a truthy `OrderId`, then
reconcile: fetch the order by id and return the raw payload when truthy;
when that fetch throws, scan the account's positions for the submitted
order id; otherwise synthesize the fallback order. -/
def createOrder (clientId : Js) (account_key : String) (type : String)
    (uic quantity : Js) (order_type : String) (price stop_limit : Js)
    (options : OrderOptions) (env : CreateOrderEnv) : CreateOrderOutcome :=
  match validateOrder order_type price stop_limit with
  | some msg => { submitted := false, payload := none, result := Except.error (JsError.error msg) }
  | none =>
    let payload := buildOrderRequest account_key type uic quantity order_type price stop_limit options
    match env.submitResponse with
    | Except.error msg =>
      { submitted := true, payload := some payload, result := Except.error (JsError.error msg) }
    | Except.ok body =>
      match handleError body with
      | Except.error e =>
        { submitted := true, payload := some payload, result := Except.error e }
      | Except.ok response =>
        if !(truthy response) || !(truthy (response.get "OrderId")) then
          { submitted := true, payload := some payload,
            result := Except.error (JsError.error "Failed to place order: No OrderId returned") }
        else
          let orderId := response.get "OrderId"
          match env.orderDetails with
          | Except.ok orderDetails =>
            if truthy orderDetails then
              { submitted := true, payload := some payload,
                result := Except.ok (CreateOrderResult.rawOrder orderDetails) }
            else
              { submitted := true, payload := some payload,
                result := Except.ok (CreateOrderResult.fallback
                  (mkFallback orderId type order_type price quantity env.now uic clientId
                    account_key options)) }
          | Except.error _ =>
            match (getPositions clientId env.positionsRaw).find? (positionMatches orderId) with
            | some p =>
              { submitted := true, payload := some payload,
                result := Except.ok (CreateOrderResult.position p) }
            | none =>
              { submitted := true, payload := some payload,
                result := Except.ok (CreateOrderResult.fallback
                  (mkFallback orderId type order_type price quantity env.now uic clientId
                    account_key options)) }

/-- The PATCH body of `modifyOrder` (src/index.ts:548-562).  `OrderPrice`
and `Amount` are set only under an explicit `!== undefined` test (not
truthiness), `OrderDuration` is the fixed default. -/
structure UpdateData where
  AccountKey : String
  OrderId : String
  OrderType : String
  AssetType : Js
  Uic : Js
  OrderDuration : Js
  OrderPrice : Option Js
  Amount : Option Js

/-- The internal `order_type` translated back to the provider enum with
`"Limit"` as the default fallback (src/index.ts:551-555). -/
def mapOrderTypeBack (j : Js) : String :=
  if strictEq j (Js.str "market") then "Market"
  else if strictEq j (Js.str "limit") then "Limit"
  else if strictEq j (Js.str "stop") then "Stop"
  else if strictEq j (Js.str "stop_limit") then "StopLimit"
  else "Limit"

/-- Builds the PATCH body from the found order (src/index.ts:548-562). -/
def mkUpdateData (account_key orderId : String) (o : Order) (price quantity : Js) :
    UpdateData :=
  { AccountKey := account_key, OrderId := orderId,
    OrderType := mapOrderTypeBack o.order_type,
    AssetType := o.assetType, Uic := o.uic,
    OrderDuration := Js.obj [("DurationType", Js.str "GoodTillCancel")],
    OrderPrice := if price.isUndef then none else some price,
    Amount := if quantity.isUndef then none else some quantity }

/-- The network oracle for one `modifyOrder` run: the transport outcome
behind its `getOrders` listing and the parsed body of the PATCH. -/
structure ModifyEnv where
  ordersRaw : RequestResult
  patchResponse : RequestResult

/-- A `modifyOrder` run's observable outcome: the PATCH body when one was
issued (`none`: no PATCH request was made), and the returned value or
thrown error. -/
structure ModifyOutcome where
  issuedPatch : Option UpdateData
  result : Except JsError Js

/-- `modifyOrder` (src/index.ts:535-574): list the account's orders, find
the target by `o.id === orderId`; when absent, throw (the inner
"Order ... not found" error is re-wrapped by the catch) without issuing
the PATCH; when found, PATCH the rebuilt type context and classify the
response. -/
def modifyOrder (account_key orderId : String) (price quantity : Js)
    (env : ModifyEnv) : ModifyOutcome :=
  match (getOrders env.ordersRaw).find? (fun o => strictEq o.id (Js.str orderId)) with
  | none =>
    { issuedPatch := none,
      result := Except.error (JsError.error
        ("Failed to get order details: Error: Order " ++ orderId ++ " not found")) }
  | some currentOrder =>
    let u := mkUpdateData account_key orderId currentOrder price quantity
    match env.patchResponse with
    | Except.error msg => { issuedPatch := some u, result := Except.error (JsError.error msg) }
    | Except.ok body =>
      match handleError body with
      | Except.error e => { issuedPatch := some u, result := Except.error e }
      | Except.ok r => { issuedPatch := some u, result := Except.ok r }

/-- Does the character list start with the given pattern? -/
def leadMatch : List Char → List Char → Bool
  | _, [] => true
  | [], _ :: _ => false
  | c :: cs, p :: ps => c == p && leadMatch cs ps

/-- The remainder of the list after the first occurrence of `sub`, `none`
when `sub` does not occur. -/
def afterSeq (sub : List Char) : List Char → Option (List Char)
  | [] => if sub.isEmpty then some [] else none
  | s@(_ :: rest) => if leadMatch s sub then some (s.drop sub.length) else afterSeq sub rest

/-- Substring containment, the `String.prototype.includes` test of
src/index.ts:252. -/
def includesSub (s sub : String) : Bool := (afterSeq sub.data s.data).isSome

/-- The network oracle of one `authenticate` run (src/index.ts:240-315):
the `Location` header of the authorize GET, the `Location` header of the
login POST, the authorization `code` extracted from the final redirect
(`Except.error`: the `new URL(...)` construction threw on an unparseable
location; `Except.ok none`: no `code` query parameter), whether the token
exchange returned 2xx, and its parsed body. -/
structure AuthEnv where
  authorizeLocation : Option String
  loginLocation : Option String
  finalCode : Except String (Option String)
  tokenOk : Bool
  tokenBody : Js

/-- `authenticate` (src/index.ts:240-315) as the sequence of requests it
issues (labelled `authorize`, `login`, `postLogin`, `token`) together with
its thrown error or token body.  Step 2's check (line 252): fail unless
the authorize response's `Location` is a non-empty string containing the
substring `"saxobank.com"` (an empty or absent header fails, an empty
string also fails the containment test, so the two tests collapse). -/
def authenticate (env : AuthEnv) : List String × Except String Js :=
  match env.authorizeLocation with
  | none => (["authorize"], Except.error "Unexpected redirect during authentication")
  | some loginUrl =>
    if !(includesSub loginUrl "saxobank.com") then
      (["authorize"], Except.error "Unexpected redirect during authentication")
    else
      match env.loginLocation with
      | none => (["authorize", "login"], Except.error "Login failed, no redirect received")
      | some _ =>
        match env.finalCode with
        | Except.error e => (["authorize", "login", "postLogin"], Except.error e)
        | Except.ok none =>
          (["authorize", "login", "postLogin"],
            Except.error "Failed to retrieve authorization code")
        | Except.ok (some _) =>
          if env.tokenOk then
            (["authorize", "login", "postLogin", "token"], Except.ok env.tokenBody)
          else
            (["authorize", "login", "postLogin", "token"],
              Except.error "Failed to fetch token")

/-- Modelled from the spec: "the provider's known login domain".  The
host of the URL: what follows the scheme separator up to the next `/`, `?`
or `#`, with userinfo and port stripped. -/
def urlHost (url : String) : String :=
  match afterSeq "://".data url.data with
  | none => ""
  | some afterScheme =>
    let authority := afterScheme.takeWhile (fun c => !(c == '/' || c == '?' || c == '#'))
    let noUserinfo := (authority.reverse.takeWhile (fun c => !(c == '@'))).reverse
    String.mk (noUserinfo.takeWhile (fun c => !(c == ':')))

/-- Modelled from the spec: a redirect target "targets the provider's
known login domain" when its host is `saxobank.com` or one of its
subdomains. -/
def targetsLoginDomain (url : String) : Bool :=
  urlHost url = "saxobank.com"
    || leadMatch (urlHost url).data.reverse ".saxobank.com".data.reverse

/-- Modelled from the spec: the internal `Order` shape is the record with
fields `id, time, uic, type, order_type, status, price, quantity,
client_id, account_id, exchange_id`; a JavaScript value is in that shape
when it carries every one of those fields. -/
def isInternalOrderShape (j : Js) : Bool :=
  ["id", "time", "uic", "type", "order_type", "status", "price", "quantity",
    "client_id", "account_id", "exchange_id"].all (fun k => !(j.get k).isUndef)

/-- The transport failure message `request` raises for an HTTP 500. -/
def srvErrMsg : String := "API request failed: Internal Server Error"

/-- The `Balance` that `getBalance` builds when the mapping runs over the
recovered `Error` object of a rejected request: every `||`-defaulted field
is `0`, `currency` is `undefined`, and the back-reference holds the
`Error` itself. -/
def zeroBalance (msg : String) : Balance :=
  { cashBalance := Js.num 0, cashAvailable := Js.num 0, totalValue := Js.num 0,
    marginUsed := Js.num 0, marginAvailable := Js.num 0, unrealizedPnL := Js.num 0,
    currency := Js.undef, internal := jsErrorObj msg }

/-- A redirect target that contains the substring `saxobank.com` but whose
host is a foreign domain. -/
def evilUrl : String := "https://evil.example/login?next=saxobank.com"

/-- An `authenticate` oracle whose authorize redirect is `evilUrl` and
whose login POST then yields no redirect. -/
def evilAuthEnv : AuthEnv :=
  { authorizeLocation := some evilUrl, loginLocation := none,
    finalCode := Except.ok none, tokenOk := false, tokenBody := Js.undef }

/-- A submission response carrying an order id. -/
def submitOkBody : Js := Js.obj [("OrderId", Js.str "42")]

/-- A raw provider order payload, as `/trade/v2/orders/{clientKey}/{id}`
returns it: PascalCase provider fields, none of the internal ones. -/
def rawOrderEx : Js :=
  Js.obj [("OrderId", Js.str "42"), ("Uic", Js.num 21), ("BuySell", Js.str "Buy"),
    ("OpenOrderType", Js.str "Limit"), ("Status", Js.str "Working"),
    ("Price", Js.num 8), ("Amount", Js.num 100), ("AccountId", Js.str "A"),
    ("ClientId", Js.str "C")]

/-- A positions payload whose one position was opened by order `"42"`. -/
def posPayloadEx : Js := Js.obj [("Data", Js.arr [Js.obj [
  ("PositionId", Js.str "P1"),
  ("PositionBase", Js.obj [("Uic", Js.num 21), ("AccountId", Js.str "A"),
    ("SourceOrderId", Js.str "42"), ("Status", Js.str "Open"), ("Amount", Js.num 100),
    ("OpenPrice", Js.num 8)]),
  ("PositionView", Js.obj [("CurrentPrice", Js.num 9), ("ExposureCurrency", Js.str "EUR")])]])]

/-- The normalized `Position` that `getPositions` builds from
`posPayloadEx`. -/
def posEx : Position :=
  { id := Js.str "P1", uic := Js.num 21, client_id := Js.str "C", account_id := Js.str "A",
    order_id := Js.str "42", status := Js.str "Open", quantity := Js.num 100,
    price := Js.num 8, value := Js.num 9, currency := Js.str "EUR", assetType := Js.undef,
    internal := Js.obj [("PositionId", Js.str "P1"),
      ("PositionBase", Js.obj [("Uic", Js.num 21), ("AccountId", Js.str "A"),
        ("SourceOrderId", Js.str "42"), ("Status", Js.str "Open"), ("Amount", Js.num 100),
        ("OpenPrice", Js.num 8)]),
      ("PositionView", Js.obj [("CurrentPrice", Js.num 9), ("ExposureCurrency", Js.str "EUR")])] }

/-- A reconciliation oracle where the order-by-id fetch succeeds. -/
def envPending : CreateOrderEnv :=
  { now := Js.num 1700000000, submitResponse := Except.ok submitOkBody,
    orderDetails := Except.ok rawOrderEx, positionsRaw := Except.error srvErrMsg }

/-- A reconciliation oracle where the order-by-id fetch throws (the order
was executed) and the positions listing contains its position. -/
def envExecuted : CreateOrderEnv :=
  { now := Js.num 1700000000, submitResponse := Except.ok submitOkBody,
    orderDetails := Except.error "API request failed: Not Found",
    positionsRaw := Except.ok posPayloadEx }

/-- A reconciliation oracle where the order-by-id fetch throws and the
positions listing is unavailable as well. -/
def envUnresolved : CreateOrderEnv :=
  { now := Js.num 1700000000, submitResponse := Except.ok submitOkBody,
    orderDetails := Except.error "API request failed: Not Found",
    positionsRaw := Except.error srvErrMsg }

theorem createOrder_passes (clientId : Js) (ak ty : String) (uic qty : Js)
    (ot : String) (price sl : Js) (opts : OrderOptions) (env : CreateOrderEnv)
    (hv : validateOrder ot price sl = none) :
    (createOrder clientId ak ty uic qty ot price sl opts env).submitted = true
    ∧ (createOrder clientId ak ty uic qty ot price sl opts env).payload
        = some (buildOrderRequest ak ty uic qty ot price sl opts) := by
  unfold createOrder
  rw [hv]
  dsimp only []
  repeat' split
  all_goals exact ⟨rfl, rfl⟩

theorem truthy_of_get (j : Js) (k : String) (h : truthy (j.get k) = true) :
    truthy j = true := by
  cases j <;> simp [Js.get, truthy] at h ⊢

/-- C1: when the submission response carries an order id, the order-by-id
fetch throws, and the current positions contain a position whose
back-referenced `PositionBase.SourceOrderId` strictly equals the submitted
order id, `createOrder` returns that `Position` — not a synthesized
fallback order. -/
theorem createOrder_executed_returns_position
    (clientId : Js) (ak ty : String) (uic qty : Js) (ot : String) (price sl : Js)
    (opts : OrderOptions) (env : CreateOrderEnv) (body response : Js) (e : String)
    (p : Position)
    (hv : validateOrder ot price sl = none)
    (hs : env.submitResponse = Except.ok body)
    (hh : handleError body = Except.ok response)
    (hid : truthy (response.get "OrderId") = true)
    (hf : env.orderDetails = Except.error e)
    (hp : (getPositions clientId env.positionsRaw).find?
        (positionMatches (response.get "OrderId")) = some p) :
    (createOrder clientId ak ty uic qty ot price sl opts env).result
      = Except.ok (CreateOrderResult.position p) := by
  simp [createOrder, hv, hs, hh, truthy_of_get _ _ hid, hid, hf, hp]

/-- C1 witness: a simulated provider whose order-by-id lookup returns
not-found right after submission of order `"42"` and whose positions list
holds the position opened by it. -/
theorem createOrder_executed_returns_position_witness :
    (createOrder (Js.str "C") "AK" "buy" (Js.num 21) (Js.num 100) "limit"
      (Js.num 8) Js.undef {} envExecuted).result
      = Except.ok (CreateOrderResult.position posEx) :=
  createOrder_executed_returns_position (Js.str "C") "AK" "buy" (Js.num 21) (Js.num 100)
    "limit" (Js.num 8) Js.undef {} envExecuted submitOkBody submitOkBody
    "API request failed: Not Found" posEx rfl rfl rfl rfl rfl rfl

/-- C2: `createOrder` raises a `ValidationError` if and only if the
`(orderType, price, stopLimit)` combination violates the validation table
— stop without a stop-limit, market with a price or stop-limit,
limit/stop-limit without a price, or an unknown order type — and a
violating combination is rejected with the submission POST never issued,
while every other combination passes validation.  "Present"/"absent"
follow the code's JavaScript truthiness tests (`0` counts as absent,
which C10 records explicitly). -/
theorem createOrder_validation_table (ot : String) (price sl : Js) :
    (validateOrder ot price sl ≠ none ↔
      ((ot = "stop" ∧ truthy sl = false)
        ∨ (ot = "market" ∧ (truthy price = true ∨ truthy sl = true))
        ∨ ((ot = "limit" ∨ ot = "stop_limit") ∧ truthy price = false)
        ∨ (ot ≠ "market" ∧ ot ≠ "limit" ∧ ot ≠ "stop" ∧ ot ≠ "stop_limit")))
    ∧ (∀ (clientId : Js) (ak ty : String) (uic qty : Js) (opts : OrderOptions)
        (env : CreateOrderEnv),
        (createOrder clientId ak ty uic qty ot price sl opts env).submitted
          = (validateOrder ot price sl).isNone) := by
  constructor
  · unfold validateOrder
    split_ifs with h1 h2 h3 h4 <;>
      simp_all [Bool.and_eq_true, Bool.or_eq_true, Bool.not_eq_true']
  · intro clientId ak ty uic qty opts env
    cases hv : validateOrder ot price sl with
    | some msg => unfold createOrder; rw [hv]; rfl
    | none => exact ((createOrder_passes clientId ak ty uic qty ot price sl opts env hv).1).trans rfl

/-- C3: once the submission response has been classified as a success and
carries a truthy order id, `createOrder` never throws: its result is
always `Except.ok`, and on both unresolved paths — a fetch that returns a
falsy payload, or a fetch that throws with no matching position — it is
the synthesized fallback order, whose status is `"working"`. -/
theorem createOrder_accepted_never_throws
    (clientId : Js) (ak ty : String) (uic qty : Js) (ot : String) (price sl : Js)
    (opts : OrderOptions) (env : CreateOrderEnv) (body response : Js)
    (hv : validateOrder ot price sl = none)
    (hs : env.submitResponse = Except.ok body)
    (hh : handleError body = Except.ok response)
    (hid : truthy (response.get "OrderId") = true) :
    exceptIsOk (createOrder clientId ak ty uic qty ot price sl opts env).result = true
    ∧ (mkFallback (response.get "OrderId") ty ot price qty env.now uic clientId ak
        opts).status = "working"
    ∧ (∀ od, env.orderDetails = Except.ok od → truthy od = false →
        (createOrder clientId ak ty uic qty ot price sl opts env).result
          = Except.ok (CreateOrderResult.fallback (mkFallback (response.get "OrderId")
              ty ot price qty env.now uic clientId ak opts)))
    ∧ (∀ e, env.orderDetails = Except.error e →
        (getPositions clientId env.positionsRaw).find?
            (positionMatches (response.get "OrderId")) = none →
        (createOrder clientId ak ty uic qty ot price sl opts env).result
          = Except.ok (CreateOrderResult.fallback (mkFallback (response.get "OrderId")
              ty ot price qty env.now uic clientId ak opts))) := by
  have hr : truthy response = true := truthy_of_get _ _ hid
  refine ⟨?_, rfl, ?_, ?_⟩
  · cases hod : env.orderDetails with
    | ok od =>
      cases hto : truthy od <;>
        simp [createOrder, hv, hs, hh, hr, hid, hod, hto, exceptIsOk]
    | error e =>
      cases hfind : (getPositions clientId env.positionsRaw).find?
          (positionMatches (response.get "OrderId")) <;>
        simp [createOrder, hv, hs, hh, hr, hid, hod, hfind, exceptIsOk]
  · intro od h1 h2
    simp [createOrder, hv, hs, hh, hr, hid, h1, h2]
  · intro e h1 h2
    simp [createOrder, hv, hs, hh, hr, hid, h1, h2]

/-- C3 witness: with both the order-by-id fetch and the positions listing
unavailable, the accepted submission still resolves to the synthesized
`"working"` fallback order instead of a thrown failure. -/
theorem createOrder_accepted_never_throws_witness :
    exceptIsOk (createOrder (Js.str "C") "AK" "buy" (Js.num 21) (Js.num 100) "limit"
      (Js.num 8) Js.undef {} envUnresolved).result = true
    ∧ (createOrder (Js.str "C") "AK" "buy" (Js.num 21) (Js.num 100) "limit"
        (Js.num 8) Js.undef {} envUnresolved).result
      = Except.ok (CreateOrderResult.fallback (mkFallback (Js.str "42") "buy" "limit"
          (Js.num 8) (Js.num 100) (Js.num 1700000000) (Js.num 21) (Js.str "C") "AK" {})) := by
  have h := createOrder_accepted_never_throws (Js.str "C") "AK" "buy" (Js.num 21)
    (Js.num 100) "limit" (Js.num 8) Js.undef {} envUnresolved submitOkBody submitOkBody
    rfl rfl rfl rfl
  exact ⟨h.1, h.2.2.2 "API request failed: Not Found" rfl rfl⟩

/-- C4 (amended): when the order-by-id fetch succeeds with a truthy
payload, `createOrder` returns that payload verbatim — the provider's raw
shape, with no normalization applied. -/
theorem createOrder_fetch_returns_payload_verbatim
    (clientId : Js) (ak ty : String) (uic qty : Js) (ot : String) (price sl : Js)
    (opts : OrderOptions) (env : CreateOrderEnv) (body response od : Js)
    (hv : validateOrder ot price sl = none)
    (hs : env.submitResponse = Except.ok body)
    (hh : handleError body = Except.ok response)
    (hid : truthy (response.get "OrderId") = true)
    (hf : env.orderDetails = Except.ok od)
    (ht : truthy od = true) :
    (createOrder clientId ak ty uic qty ot price sl opts env).result
      = Except.ok (CreateOrderResult.rawOrder od) := by
  simp [createOrder, hv, hs, hh, truthy_of_get _ _ hid, hid, hf, ht]

/-- C4 witness: the successful fetch of order `"42"` returns the raw
provider payload. -/
theorem createOrder_fetch_returns_payload_verbatim_witness :
    (createOrder (Js.str "C") "AK" "buy" (Js.num 21) (Js.num 100) "limit"
      (Js.num 8) Js.undef {} envPending).result
      = Except.ok (CreateOrderResult.rawOrder rawOrderEx) :=
  createOrder_fetch_returns_payload_verbatim (Js.str "C") "AK" "buy" (Js.num 21)
    (Js.num 100) "limit" (Js.num 8) Js.undef {} envPending submitOkBody submitOkBody
    rawOrderEx rfl rfl rfl rfl rfl rfl

/-- C4 counterexample: the value `createOrder` returns after a successful
order-by-id fetch is the raw provider payload (`OrderId`, `Uic`, ...
fields), which does not carry the internal `Order` fields `id, time, uic,
type, order_type, status, price, quantity, client_id, account_id,
exchange_id` — so it is not a value in the internal `Order` shape, contrary
to the claim. -/
theorem createOrder_fetched_payload_not_internal_shape :
    (createOrder (Js.str "C") "AK" "buy" (Js.num 21) (Js.num 100) "limit" (Js.num 8)
      Js.undef {} envPending).result = Except.ok (CreateOrderResult.rawOrder rawOrderEx)
    ∧ isInternalOrderShape rawOrderEx = false := ⟨rfl, rfl⟩

/-- C5: the error classifier raises a classified error carrying
`ErrorCode`/`Message`/`ModelState` on a payload with a (truthy) top-level
`ErrorCode`; otherwise, on a payload with a (truthy) nested `ErrorInfo`,
one carrying `ErrorInfo.ErrorCode`/`ErrorInfo.Message`; any other payload
passes through unchanged as a success.  In particular
`{ErrorCode:"X", Message:"bad", ModelState:{...}}` raises the classified
error with code `"X"` and message `"bad"`.  Field presence is the code's
JavaScript truthiness test. -/
theorem handleError_classification :
    (∀ p : Js, truthy (p.get "ErrorCode") = true →
      handleError p = Except.error (JsError.apiError (p.get "ErrorCode") (p.get "Message")
        (some (p.get "ModelState"))))
    ∧ (∀ p : Js, truthy (p.get "ErrorCode") = false → truthy (p.get "ErrorInfo") = true →
      handleError p = Except.error (JsError.apiError ((p.get "ErrorInfo").get "ErrorCode")
        ((p.get "ErrorInfo").get "Message") none))
    ∧ (∀ p : Js, truthy (p.get "ErrorCode") = false → truthy (p.get "ErrorInfo") = false →
      handleError p = Except.ok p)
    ∧ handleError (Js.obj [("ErrorCode", Js.str "X"), ("Message", Js.str "bad"),
        ("ModelState", Js.obj [("k", Js.str "v")])])
      = Except.error (JsError.apiError (Js.str "X") (Js.str "bad")
        (some (Js.obj [("k", Js.str "v")]))) := by
  refine ⟨?_, ?_, ?_, rfl⟩
  · intro p h1
    simp [handleError, h1]
  · intro p h1 h2
    simp [handleError, h1, h2]
  · intro p h1 h2
    simp [handleError, h1, h2]

/-- C6: on any failure — a rejected/non-2xx request or a classified
provider error payload — the lenient read-list operations return `[]` and
`getExposure` returns `{}` instead of throwing. -/
theorem lenient_reads_swallow_failures (clientId : Js) (raw : RequestResult)
    (h : requestFailed raw = true) :
    getPositions clientId raw = [] ∧ getOrders raw = []
    ∧ getNetPositions clientId raw = [] ∧ getClosedPositions clientId raw = []
    ∧ getExposure raw = Js.obj [] := by
  cases raw with
  | error msg => exact ⟨rfl, rfl, rfl, rfl, rfl⟩
  | ok body =>
    cases hh : handleError body with
    | error e =>
      simp [getPositions, getOrders, getNetPositions, getClosedPositions, getExposure,
        lenientRead, hh]
    | ok r => simp [requestFailed, hh] at h

/-- C6 witness: a provider answering HTTP 500 (the transport layer rejects
with "API request failed: Internal Server Error") yields `[]` / `{}` from
every lenient read. -/
theorem lenient_reads_swallow_failures_witness :
    getPositions (Js.str "C") (Except.error srvErrMsg) = []
    ∧ getOrders (Except.error srvErrMsg) = []
    ∧ getNetPositions (Js.str "C") (Except.error srvErrMsg) = []
    ∧ getClosedPositions (Js.str "C") (Except.error srvErrMsg) = []
    ∧ getExposure (Except.error srvErrMsg) = Js.obj [] :=
  lenient_reads_swallow_failures (Js.str "C") (Except.error srvErrMsg) rfl

/-- C7 counterexample: a transport failure during `getBalance` (e.g. HTTP
500) does NOT propagate as a thrown failure: `.catch(handleError)`
receives the thrown `Error`, which has no `ErrorCode`/`ErrorInfo`, so
`handleError` returns it and thereby recovers the promise; the field
mapping then reads absent properties off the `Error` object and the call
fulfills with a default `Balance` of zeroed numbers and an `undefined`
currency — contradicting the claim that every `getBalance` failure is
thrown and never swallowed into a default result. -/
theorem getBalance_transport_error_swallowed :
    getBalance (Except.error srvErrMsg) = Except.ok (zeroBalance srvErrMsg)
    ∧ exceptIsOk (getBalance (Except.error srvErrMsg)) = true := ⟨rfl, rfl⟩

/-- C7 (amended): `getBalance` propagates classified provider error
payloads but swallows a rejected request into the zeroed default
`Balance`; `preCheckOrder` propagates both rejected requests and
classified provider error payloads. -/
theorem balance_precheck_error_handling :
    (∀ body e, handleError body = Except.error e →
      getBalance (Except.ok body) = Except.error e)
    ∧ (∀ msg, getBalance (Except.error msg) = Except.ok (zeroBalance msg))
    ∧ (∀ msg, preCheckOrder (Except.error msg) = Except.error (JsError.error msg))
    ∧ (∀ body e, handleError body = Except.error e →
      preCheckOrder (Except.ok body) = Except.error e) := by
  refine ⟨?_, ?_, fun msg => rfl, ?_⟩
  · intro body e h
    simp [getBalance, h]
  · intro msg
    rfl
  · intro body e h
    simp [preCheckOrder, h]

/-- C8: `modifyOrder` first lists the account's orders and looks the
target up by `o.id === orderId`: the PATCH body is issued exactly for the
found order (carrying its `order_type`-derived `OrderType`, its
`AssetType` and `Uic`), and when no listed order has the id the call
throws the wrapped "Order ... not found" failure with no PATCH issued. -/
theorem modifyOrder_requires_listed_order (ak oid : String) (price qty : Js)
    (env : ModifyEnv) :
    (modifyOrder ak oid price qty env).issuedPatch
      = ((getOrders env.ordersRaw).find? (fun o => strictEq o.id (Js.str oid))).map
          (fun o => mkUpdateData ak oid o price qty)
    ∧ ((getOrders env.ordersRaw).find? (fun o => strictEq o.id (Js.str oid)) = none →
        (modifyOrder ak oid price qty env).result = Except.error (JsError.error
          ("Failed to get order details: Error: Order " ++ oid ++ " not found"))) := by
  cases hf : (getOrders env.ordersRaw).find? (fun o => strictEq o.id (Js.str oid)) with
  | none => exact ⟨by simp [modifyOrder, hf], fun _ => by simp [modifyOrder, hf]⟩
  | some o =>
    refine ⟨?_, by simp [hf]⟩
    cases hp : env.patchResponse with
    | error msg => simp [modifyOrder, hf, hp]
    | ok body => cases hh : handleError body <;> simp [modifyOrder, hf, hp, hh]

/-- C9 counterexample: the redirect target
`https://evil.example/login?next=saxobank.com` does not target the
provider's login domain (its host is `evil.example`), yet because the code
only tests substring containment of `saxobank.com`, `authenticate` does
not fail with the UnexpectedRedirect classification there: it proceeds to
issue the login request (a further request), failing later with the
distinct "Login failed" error — contradicting the claimed
if-and-only-if. -/
theorem authenticate_domain_check_counterexample :
    includesSub evilUrl "saxobank.com" = true
    ∧ targetsLoginDomain evilUrl = false
    ∧ (authenticate evilAuthEnv).1 = ["authorize", "login"]
    ∧ (authenticate evilAuthEnv).2 = Except.error "Login failed, no redirect received" :=
  ⟨by decide, by decide, by decide, rfl⟩

/-- C9 (amended): after the authorize GET, `authenticate` fails with the
UnexpectedRedirect classification making no further requests if and only
if the `Location` header is absent or does not CONTAIN the substring
`saxobank.com` — a weaker test than targeting the login domain, since any
URL mentioning `saxobank.com` anywhere (even in a query parameter of a
foreign host) passes it. -/
theorem authenticate_redirect_gate (env : AuthEnv) :
    ((authenticate env).1 = ["authorize"]
      ∧ (authenticate env).2 = Except.error "Unexpected redirect during authentication")
    ↔ (∀ s, env.authorizeLocation = some s → includesSub s "saxobank.com" = false) := by
  cases hl : env.authorizeLocation with
  | none => simp [authenticate, hl]
  | some s =>
    cases hc : includesSub s "saxobank.com" with
    | false => simp [authenticate, hl, hc]
    | true =>
      constructor
      · rintro ⟨h1, -⟩
        exfalso
        simp only [authenticate, hl, hc] at h1
        cases hlog : env.loginLocation with
        | none => rw [hlog] at h1; simp at h1
        | some t =>
          rw [hlog] at h1
          cases hfc : env.finalCode with
          | error e => rw [hfc] at h1; simp at h1
          | ok oc =>
            rw [hfc] at h1
            cases oc with
            | none => simp at h1
            | some c => cases htk : env.tokenOk <;> rw [htk] at h1 <;> simp at h1
      · intro hall
        have := hall s rfl
        rw [hc] at this
        cases this

/-- C10: the truthiness-based validation treats `0` as absent: a limit or
stop-limit order with price `0` and a stop order with stop-limit `0` raise
the corresponding `ValidationError`, while a market order given price `0`
and stop-limit `0` passes validation, proceeds to submission, and its
payload omits both `OrderPrice` and `StopLimitPrice`. -/
theorem createOrder_zero_values_treated_absent :
    validateOrder "limit" (Js.num 0) Js.undef = some "Limit orders require a price"
    ∧ validateOrder "stop_limit" (Js.num 0) (Js.num 5) = some "Limit orders require a price"
    ∧ validateOrder "stop" (Js.num 8) (Js.num 0) = some "Stop orders require a stop limit price"
    ∧ validateOrder "market" (Js.num 0) (Js.num 0) = none
    ∧ (∀ (clientId : Js) (ak ty : String) (uic qty : Js) (opts : OrderOptions)
        (env : CreateOrderEnv),
        (createOrder clientId ak ty uic qty "market" (Js.num 0) (Js.num 0) opts env).submitted
          = true
        ∧ (createOrder clientId ak ty uic qty "market" (Js.num 0) (Js.num 0) opts
            env).payload
          = some (buildOrderRequest ak ty uic qty "market" (Js.num 0) (Js.num 0) opts)
        ∧ (buildOrderRequest ak ty uic qty "market" (Js.num 0) (Js.num 0) opts).OrderPrice
          = none
        ∧ (buildOrderRequest ak ty uic qty "market" (Js.num 0) (Js.num 0)
            opts).StopLimitPrice = none) := by
  refine ⟨rfl, rfl, rfl, rfl, ?_⟩
  intro clientId ak ty uic qty opts env
  have h := createOrder_passes clientId ak ty uic qty "market" (Js.num 0) (Js.num 0)
    opts env rfl
  exact ⟨h.1, h.2, rfl, rfl⟩
